import Mathlib

/-
Shallow embedding of the StuyTown apartment scraper (src/main.py) and proofs
about its change-detection pipeline.

Modelling conventions:
- A Python `Dict[str, Dict]` used as the known-apartments state is modelled as
  an insertion-ordered association list `KnownState` with `dictInsert`
  replacing the value at an existing key in place (Python dict assignment),
  `dictGet` as subscript lookup, and `dictMem` as the `in` operator.
- Selenium field reads inside `extract_apartments` either raise (caught by the
  surrounding `try/except`) or return the text/attribute string; each read is
  therefore an `Option String` input (`none` = the read raised).
- `datetime.now().isoformat()` is an opaque timestamp string `now` supplied
  per cycle.
- `document.body.scrollHeight` measurements in `scroll_to_load_all` are an
  input stream `heights : Nat → Int`; `heights 0` is the measurement taken
  before the loop and `heights i` the one after the i-th scroll.
- `json.load` in `load_existing_apartments` is an external parser
  `String → Option Json` (`none` = it raised); the untyped parsed value is an
  inductive `Json`. The logging line then calls `len(data)` inside the same
  `try`, so a parsed value without a Python length (null, bool, number)
  raises TypeError, is caught, and loads as the empty dict; sized values
  (string, list, object) are returned unchanged.
- File writes in `save_apartments` are caught on failure, so a cycle is run
  against a `saveOk : Bool` environment flag and an abstract previous file
  content; on failure the file keeps its old content.
-/

namespace StuyTown

def STUYTOWN_URL : String :=
  "https://www.stuytown.com/nyc-apartments-for-rent/?Order=low-price&Bedrooms=1-2"

/-- Site origin prepended to relative unit links (src/main.py line 170). -/
def SITE_ORIGIN : String := "https://www.stuytown.com"

/-- One apartment record as built at src/main.py lines 180-187. -/
structure Apartment where
  address : String
  price : String
  bedrooms : String
  availability : String
  discovered_at : String
  url : String
deriving DecidableEq, Repr

/-- The `known_apartments` dict: insertion-ordered mapping address → record. -/
abbrev KnownState := List (String × Apartment)

/-- Python `key in dict`. -/
def dictMem : KnownState → String → Bool
  | [], _ => false
  | p :: rest, k => if p.1 = k then true else dictMem rest k

/-- Python `dict[key]` lookup (as an `Option`). -/
def dictGet : KnownState → String → Option Apartment
  | [], _ => none
  | p :: rest, k => if p.1 = k then some p.2 else dictGet rest k

/-- Python `dict[key] = value`: replace in place if the key exists, else
append at the end (dicts preserve insertion order). -/
def dictInsert : KnownState → String → Apartment → KnownState
  | [], k, v => [(k, v)]
  | p :: rest, k, v => if p.1 = k then (k, v) :: rest else p :: dictInsert rest k v

/-- The diff loop body of `check_for_new_apartments` (src/main.py lines
263-269): fold over `current`, inserting each record into
`updated_apartments` and appending it to `new_apartments` when its address is
not in the prior `known_apartments`. -/
def diffGo (previous : KnownState) :
    List Apartment → List Apartment × KnownState → List Apartment × KnownState
  | [], acc => acc
  | apt :: rest, acc =>
      diffGo previous rest
        ((if dictMem previous apt.address then acc.1 else acc.1 ++ [apt]),
         dictInsert acc.2 apt.address apt)

/-- The diff step of `check_for_new_apartments`: from `current` and the prior
state, produce `(new_apartments, updated_apartments)` starting from an empty
list and a fresh dict. -/
def diffStep (current : List Apartment) (previous : KnownState) :
    List Apartment × KnownState :=
  diffGo previous current ([], [])

/-- Raw field reads for one `.bG_cM` container: `none` models the
`find_element` call raising (caught at src/main.py lines 137, 145, 153, 161,
171), `some s` the string obtained from the element. -/
structure Container where
  bedroomsRead : Option String
  addressRead : Option String
  availabilityRead : Option String
  priceRead : Option String
  hrefRead : Option String
deriving DecidableEq, Repr

/-- Per-container body of `extract_apartments` (src/main.py lines 130-194):
fallbacks `"Unknown"`/`""`/`STUYTOWN_URL` on failed reads, origin prefixing of
a truthy relative href, and the required-field check that skips the container
(returns `none`) when address or price ends up empty. -/
def extractContainer (now : String) (c : Container) : Option Apartment :=
  let bedrooms := match c.bedroomsRead with
    | some s => s
    | none => "Unknown"
  let address := match c.addressRead with
    | some s => s
    | none => ""
  let availability := match c.availabilityRead with
    | some s => s
    | none => "Unknown"
  let price := match c.priceRead with
    | some s => s
    | none => ""
  let unit_url := match c.hrefRead with
    | some u => if u = "" then u else if u.startsWith "http" then u else SITE_ORIGIN ++ u
    | none => STUYTOWN_URL
  if address = "" ∨ price = "" then none
  else some { address := address, price := price, bedrooms := bedrooms,
              availability := availability, discovered_at := now, url := unit_url }

/-- `extract_apartments` (src/main.py lines 115-200): `found = none` models
the `WebDriverWait` timing out (zero containers, empty result); otherwise each
container is processed independently and skipped containers contribute
nothing. -/
def extract_apartments (now : String) (found : Option (List Container)) :
    List Apartment :=
  match found with
  | none => []
  | some cs => cs.filterMap (extractContainer now)

/-- Loop of `scroll_to_load_all` (src/main.py lines 91-113). `scroll_count`
scrolls have happened so far and `last` is the newest height measurement; one
iteration scrolls (so the count becomes `scroll_count + 1`), measures
`heights (scroll_count + 1)`, breaks if that equals `last`, then breaks if the
count exceeds 50, else loops. Returns the total number of scrolls performed. -/
def scrollAux (heights : Nat → Int) (last : Int) (scroll_count : Nat) : Nat :=
  if heights (scroll_count + 1) = last then scroll_count + 1
  else if scroll_count + 1 > 50 then scroll_count + 1
  else scrollAux heights (heights (scroll_count + 1)) (scroll_count + 1)
termination_by 51 - scroll_count
decreasing_by omega

/-- `scroll_to_load_all`: measure the initial height, then run the loop with
`scroll_count = 0`. Returns how many scroll commands were issued. -/
def scroll_to_load_all (heights : Nat → Int) : Nat :=
  scrollAux heights (heights 0) 0

/-- Untyped JSON value, the result of `json.load`. -/
inductive Json where
  | null : Json
  | bool (b : Bool) : Json
  | num (n : Int) : Json
  | str (s : String) : Json
  | arr (elems : List Json) : Json
  | obj (fields : List (String × Json)) : Json
deriving Repr

/-- Python `len()` applied to a parsed JSON value: defined for strings,
lists and objects, raises TypeError (`none`) for null, booleans and
numbers. -/
def jsonLen : Json → Option Nat
  | Json.str s => some s.length
  | Json.arr elems => some elems.length
  | Json.obj fields => some fields.length
  | _ => none

/-- `load_existing_apartments` (src/main.py lines 44-57): `file = none` means
the apartments file does not exist (return `{}`); otherwise `json.load`
either raises (`parseJson content = none`, caught, return `{}`) or yields a
value `data`. The logging call `len(data)` at line 50 is inside the same
`try`: when `data` has no Python length it raises TypeError, caught, return
`{}`; otherwise `data` is returned unchanged. An empty dict is
`Json.obj []`. -/
def load_existing_apartments (file : Option String)
    (parseJson : String → Option Json) : Json :=
  match file with
  | none => Json.obj []
  | some content =>
      match parseJson content with
      | some data =>
          match jsonLen data with
          | some _ => data
          | none => Json.obj []
      | none => Json.obj []

/-- `save_apartments` (src/main.py lines 59-66): the write either succeeds
(`saveOk`), replacing the file content, or raises and is caught, leaving the
old content in place. -/
def save_apartments (saveOk : Bool) (file : Option KnownState)
    (apartments : KnownState) : Option KnownState :=
  if saveOk then some apartments else file

/-- Observable outcome of one `check_for_new_apartments` cycle: the in-memory
`known_apartments` afterwards, the durable file content afterwards, and the
batch passed to `send_email_notification` (if any). -/
structure CycleOut where
  known : KnownState
  file : Option KnownState
  emailed : Option (List Apartment)
deriving DecidableEq, Repr

/-- `check_for_new_apartments` (src/main.py lines 240-283): extract; if no
apartments were found, return with nothing changed; otherwise run the diff
loop, replace the in-memory state with `updated_apartments`, attempt the save,
and email only when `new_apartments` is nonempty. -/
def check_for_new_apartments (found : Option (List Container)) (now : String)
    (known_apartments : KnownState) (saveOk : Bool)
    (file : Option KnownState) : CycleOut :=
  let current_apartments := extract_apartments now found
  if current_apartments.isEmpty then
    { known := known_apartments, file := file, emailed := none }
  else
    let d := diffStep current_apartments known_apartments
    { known := d.2,
      file := save_apartments saveOk file d.2,
      emailed := if d.1.isEmpty then none else some d.1 }

/-- Concrete container whose optional reads all raised but whose required
reads succeeded (used to exercise the fallback paths). -/
def containerFallbacks : Container :=
  { bedroomsRead := none, addressRead := some "12 Ave A",
    availabilityRead := none, priceRead := some "$3,000", hrefRead := none }

/-- Concrete container whose address read raised (skipped by extraction). -/
def containerNoAddress : Container :=
  { bedroomsRead := some "1 Bed", addressRead := some "",
    availabilityRead := some "Now", priceRead := some "$3,000",
    hrefRead := none }

/-- Concrete container whose href read yields the empty string. -/
def containerEmptyHref : Container :=
  { bedroomsRead := some "1 Bed", addressRead := some "12 Ave A",
    availabilityRead := some "Now", priceRead := some "$3,000",
    hrefRead := some "" }

/-- The record extraction produces from `containerFallbacks` at time t0. -/
def aptFallbacks : Apartment :=
  { address := "12 Ave A", price := "$3,000", bedrooms := "Unknown",
    availability := "Unknown", discovered_at := "t0", url := STUYTOWN_URL }

/-- The same record re-stamped at time t1. -/
def aptFallbacksT1 : Apartment :=
  { address := "12 Ave A", price := "$3,000", bedrooms := "Unknown",
    availability := "Unknown", discovered_at := "t1", url := STUYTOWN_URL }

/-- A stale record discovered at an earlier time, used as prior state. -/
def aptOld : Apartment :=
  { address := "12 Ave A", price := "$2,000", bedrooms := "1 Bed",
    availability := "Now", discovered_at := "t-old", url := STUYTOWN_URL }

/-- A constant height stream: the page never grows. -/
def heightsConst : Nat → Int := fun _ => 0

/-- A strictly growing height stream: the page grows on every scroll. -/
def heightsGrowing : Nat → Int := fun i => (i : Int)

theorem dictMem_eq_isSome (d : KnownState) (k : String) :
    dictMem d k = (dictGet d k).isSome := by
  induction d with
  | nil => rfl
  | cons p rest ih => by_cases h : p.1 = k <;> simp [dictMem, dictGet, h, ih]

theorem dictGet_insert_self (d : KnownState) (k : String) (v : Apartment) :
    dictGet (dictInsert d k v) k = some v := by
  induction d with
  | nil => simp [dictInsert, dictGet]
  | cons p rest ih => by_cases h : p.1 = k <;> simp [dictInsert, dictGet, h, ih]

theorem dictGet_insert_ne (d : KnownState) (k kq : String) (v : Apartment)
    (h : kq ≠ k) : dictGet (dictInsert d k v) kq = dictGet d kq := by
  induction d with
  | nil => simp [dictInsert, dictGet, Ne.symm h]
  | cons p rest ih =>
      by_cases hp : p.1 = k
      · have h1 : k ≠ kq := Ne.symm h
        have h2 : p.1 ≠ kq := by rw [hp]; exact h1
        simp [dictInsert, dictGet, hp, h1, h2]
      · by_cases hq : p.1 = kq <;> simp [dictInsert, dictGet, hp, hq, h, ih]

theorem diffGo_fst (previous : KnownState) (l : List Apartment)
    (acc : List Apartment × KnownState) :
    (diffGo previous l acc).1 =
      acc.1 ++ l.filter (fun a => !(dictMem previous a.address)) := by
  induction l generalizing acc with
  | nil => simp [diffGo]
  | cons a rest ih =>
      by_cases h : dictMem previous a.address <;>
        simp [diffGo, ih, h, List.filter_cons]

theorem diffGo_snd_get (previous : KnownState) (l : List Apartment)
    (acc : List Apartment × KnownState) (k : String) :
    dictGet (diffGo previous l acc).2 k =
      (l.reverse.find? (fun a => a.address == k)).or (dictGet acc.2 k) := by
  induction l generalizing acc with
  | nil => simp [diffGo]
  | cons a rest ih =>
      rw [diffGo, ih, List.reverse_cons, List.find?_append, Option.or_assoc]
      by_cases h : a.address = k
      · subst h
        simp [dictGet_insert_self, List.find?]
      · have hb : (a.address == k) = false := by simp [h]
        rw [dictGet_insert_ne _ _ _ _ (Ne.symm h)]
        simp [List.find?, hb]

theorem diffStep_fst (current : List Apartment) (previous : KnownState) :
    (diffStep current previous).1 =
      current.filter (fun a => !(dictMem previous a.address)) := by
  rw [diffStep, diffGo_fst]
  simp

theorem diffStep_get (current : List Apartment) (previous : KnownState)
    (k : String) :
    dictGet (diffStep current previous).2 k =
      current.reverse.find? (fun a => a.address == k) := by
  rw [diffStep, diffGo_snd_get]
  simp [dictGet]

theorem find?_isSome_eq_any {α : Type} (l : List α) (p : α → Bool) :
    (l.find? p).isSome = l.any p := by
  induction l with
  | nil => rfl
  | cons a rest ih => cases hp : p a <;> simp [List.find?, hp, ih]

theorem diffStep_mem (current : List Apartment) (previous : KnownState)
    (k : String) :
    dictMem (diffStep current previous).2 k =
      current.any (fun a => a.address == k) := by
  rw [dictMem_eq_isSome, diffStep_get, find?_isSome_eq_any, List.any_reverse]

/-- Claim C1: the diff step of `check_for_new_apartments` returns as
`new_apartments` exactly the records of `current` whose address is not a key
of `previous`, in order; and a merged dict whose keys are exactly the
addresses occurring in `current` (so addresses only in `previous` are
dropped), where lookup of an address yields the last record of `current`
bearing it (last-write-wins for duplicates). -/
theorem diff_step_spec (current : List Apartment) (previous : KnownState) :
    (diffStep current previous).1 =
        current.filter (fun a => !(dictMem previous a.address)) ∧
    (∀ k, dictMem (diffStep current previous).2 k =
        current.any (fun a => a.address == k)) ∧
    (∀ k, dictGet (diffStep current previous).2 k =
        current.reverse.find? (fun a => a.address == k)) :=
  ⟨diffStep_fst current previous, fun k => diffStep_mem current previous k,
   fun k => diffStep_get current previous k⟩

theorem diffStep_merged_no_new (current : List Apartment)
    (previous : KnownState) :
    (diffStep current (diffStep current previous).2).1 = [] := by
  rw [diffStep_fst, List.filter_eq_nil_iff]
  intro a ha
  simp [diffStep_mem, List.any_eq_true]
  exact ⟨a, ha, rfl⟩

theorem extractContainer_some_valid (now : String) (c : Container)
    (a : Apartment) (h : extractContainer now c = some a) :
    a.address ≠ "" ∧ a.price ≠ "" := by
  simp only [extractContainer] at h
  split at h
  · simp at h
  · rename_i hcond
    push_neg at hcond
    simp only [Option.some.injEq] at h
    subst h
    exact hcond

theorem extractContainer_discovered_at (now : String) (c : Container)
    (a : Apartment) (h : extractContainer now c = some a) :
    a.discovered_at = now := by
  simp only [extractContainer] at h
  split at h
  · simp at h
  · simp only [Option.some.injEq] at h
    subst h
    rfl

theorem extractContainer_skips_empty (now : String) (c : Container)
    (h : c.addressRead.getD "" = "" ∨ c.priceRead.getD "" = "") :
    extractContainer now c = none := by
  rcases c with ⟨b, ad, av, pr, hr⟩
  cases ad <;> cases pr <;> simp_all [extractContainer, Option.getD]

/-- Claim C4: every extracted record has a non-empty address and price; a
container whose address or price reads as empty yields no record at all, and
removing such a container from the pass leaves the records produced by the
other containers unchanged. -/
theorem extract_validity (now : String) (found : Option (List Container)) :
    (∀ a ∈ extract_apartments now found, a.address ≠ "" ∧ a.price ≠ "") ∧
    (∀ c : Container,
        c.addressRead.getD "" = "" ∨ c.priceRead.getD "" = "" →
        extractContainer now c = none) ∧
    (∀ (pre post : List Container) (c : Container),
        extractContainer now c = none →
        extract_apartments now (some (pre ++ c :: post)) =
          extract_apartments now (some (pre ++ post))) := by
  refine ⟨?_, ?_, ?_⟩
  · intro a ha
    cases found with
    | none => simp [extract_apartments] at ha
    | some cs =>
        simp only [extract_apartments, List.mem_filterMap] at ha
        obtain ⟨c, _, hc⟩ := ha
        exact extractContainer_some_valid now c a hc
  · intro c h
    exact extractContainer_skips_empty now c h
  · intro pre post c h
    simp [extract_apartments, List.filterMap_append, List.filterMap_cons, h]

/-- Claim C4 witness: a container with an empty address produces no record,
and a two-container pass containing it produces the same records as the pass
without it. -/
theorem extract_validity_witness :
    extractContainer "t0" containerNoAddress = none ∧
    extract_apartments "t0"
        (some ([] ++ containerNoAddress :: [containerFallbacks])) =
      extract_apartments "t0" (some ([] ++ [containerFallbacks])) :=
  ⟨(extract_validity "t0" (some [])).2.1 containerNoAddress (Or.inl rfl),
   (extract_validity "t0"
      (some [])).2.2 [] [containerFallbacks] containerNoAddress
    ((extract_validity "t0" (some [])).2.1 containerNoAddress (Or.inl rfl))⟩

/-- Claim C5 (amended): in every produced record, a raised bedrooms read
yields "Unknown", a raised availability read yields "Unknown", a raised link
read yields the listing-index URL, and a resolved NON-EMPTY link value not
starting with "http" is rewritten by prefixing the site origin; a resolved
link that is empty or already starts with "http" is kept unchanged. -/
theorem extract_field_fallbacks (now : String) (c : Container) (a : Apartment)
    (h : extractContainer now c = some a) :
    (c.bedroomsRead = none → a.bedrooms = "Unknown") ∧
    (c.availabilityRead = none → a.availability = "Unknown") ∧
    (c.hrefRead = none → a.url = STUYTOWN_URL) ∧
    (∀ u, c.hrefRead = some u → u ≠ "" → u.startsWith "http" = false →
        a.url = SITE_ORIGIN ++ u) ∧
    (∀ u, c.hrefRead = some u → u = "" ∨ u.startsWith "http" = true →
        a.url = u) := by
  simp only [extractContainer] at h
  split at h
  · simp at h
  · simp only [Option.some.injEq] at h
    subst h
    refine ⟨?_, ?_, ?_, ?_, ?_⟩
    · intro hb
      simp [hb]
    · intro hv
      simp [hv]
    · intro hu
      simp [hu]
    · intro u hu hne hs
      simp [hu, hne, hs]
    · intro u hu hor
      rcases hor with hor | hor <;> simp [hu, hor]

/-- Claim C5 witness: all-fallback container at time t0: bedrooms and
availability carry the sentinel and the url is the listing-index URL. -/
theorem extract_field_fallbacks_witness :
    aptFallbacks.bedrooms = "Unknown" ∧
    aptFallbacks.availability = "Unknown" ∧
    aptFallbacks.url = STUYTOWN_URL :=
  ⟨(extract_field_fallbacks "t0" containerFallbacks aptFallbacks
      (by decide)).1 rfl,
   (extract_field_fallbacks "t0" containerFallbacks aptFallbacks
      (by decide)).2.1 rfl,
   (extract_field_fallbacks "t0" containerFallbacks aptFallbacks
      (by decide)).2.2.1 rfl⟩

/-- Claim C5 counterexample: a container whose href resolves to the empty
string. The empty string does not start with "http", yet the produced record
keeps url = "" instead of the origin-prefixed rewrite the claim demands. -/
theorem extract_url_rewrite_counterexample :
    ("" : String).startsWith "http" = false ∧
    (extractContainer "t0" containerEmptyHref).map Apartment.url = some "" ∧
    (some "" : Option String) ≠ some (SITE_ORIGIN ++ "") := by
  refine ⟨by decide, by decide, by decide⟩

/-- Claim C2: running the diff step again with the same `current` and the
merged dict of the first run as `previous` yields no new apartments. -/
theorem diff_step_idempotent (current : List Apartment)
    (previous : KnownState) :
    (diffStep current (diffStep current previous).2).1 = [] :=
  diffStep_merged_no_new current previous

/-- Claim C3: if extraction yields zero records the cycle is skipped: the
in-memory state is unchanged, the file is not written, no email is sent. -/
theorem empty_extraction_skips_cycle (found : Option (List Container))
    (now : String) (known : KnownState) (saveOk : Bool)
    (file : Option KnownState)
    (h : extract_apartments now found = []) :
    check_for_new_apartments found now known saveOk file =
      { known := known, file := file, emailed := none } := by
  simp [check_for_new_apartments, h]

/-- Claim C3 witness: a timed-out wait (no containers) skips the cycle. -/
theorem empty_extraction_skips_cycle_witness :
    check_for_new_apartments none "t0" [("12 Ave A", aptOld)] true
        (some [("12 Ave A", aptOld)]) =
      { known := [("12 Ave A", aptOld)],
        file := some [("12 Ave A", aptOld)], emailed := none } :=
  empty_extraction_skips_cycle none "t0" [("12 Ave A", aptOld)] true
    (some [("12 Ave A", aptOld)]) rfl

/-- Claim C7: after a (non-skipped) check cycle, every record stored in the
merged state carries the discovered_at stamp of the extraction of that very
cycle, even
for an address that was already present in the previous state. -/
theorem merged_discovered_at_is_now (found : Option (List Container))
    (now : String) (previous : KnownState) (k : String) (a : Apartment)
    (h : dictGet (diffStep (extract_apartments now found) previous).2 k =
        some a) :
    a.discovered_at = now := by
  rw [diffStep_get] at h
  have hm := List.mem_of_find?_eq_some h
  rw [List.mem_reverse] at hm
  cases found with
  | none => simp [extract_apartments] at hm
  | some cs =>
      simp only [extract_apartments, List.mem_filterMap] at hm
      obtain ⟨c, _, hc⟩ := hm
      exact extractContainer_discovered_at now c a hc

/-- Claim C7 witness: address "12 Ave A" was already known with stamp
"t-old"; after a cycle extracting it at "t1" the stored record is stamped
"t1". -/
theorem merged_discovered_at_is_now_witness :
    aptFallbacksT1.discovered_at = "t1" ∧ aptOld.discovered_at = "t-old" :=
  ⟨merged_discovered_at_is_now (some [containerFallbacks]) "t1"
      [("12 Ave A", aptOld)] "12 Ave A" aptFallbacksT1 (by decide),
   rfl⟩

/-- Claim C10: with a failing save, the in-memory state is still replaced by
the merged snapshot while the file keeps its old content; a later cycle over
the same snapshot diffs against the merged state and sends no email. -/
theorem save_failure_state_divergence (found : Option (List Container))
    (now : String) (known : KnownState) (file : Option KnownState)
    (h : extract_apartments now found ≠ []) :
    (check_for_new_apartments found now known false file).known =
        (diffStep (extract_apartments now found) known).2 ∧
    (check_for_new_apartments found now known false file).file = file ∧
    (∀ (saveOk2 : Bool) (file2 : Option KnownState),
      (check_for_new_apartments found now
          (check_for_new_apartments found now known false file).known
          saveOk2 file2).emailed = none) := by
  have hne : (extract_apartments now found).isEmpty = false :=
    List.isEmpty_eq_false.mpr h
  refine ⟨?_, ?_, ?_⟩
  · simp [check_for_new_apartments, hne, save_apartments]
  · simp [check_for_new_apartments, hne, save_apartments]
  · intro saveOk2 file2
    simp [check_for_new_apartments, hne, save_apartments,
      diffStep_merged_no_new]

/-- Claim C10 witness: one new apartment, save fails: the file stays absent,
but the next cycle (successful save) sends no email for it. -/
theorem save_failure_state_divergence_witness :
    (check_for_new_apartments (some [containerFallbacks]) "t0" [] false
        none).file = none ∧
    (check_for_new_apartments (some [containerFallbacks]) "t0"
        (check_for_new_apartments (some [containerFallbacks]) "t0" [] false
          none).known
        true none).emailed = none :=
  ⟨(save_failure_state_divergence (some [containerFallbacks]) "t0" [] none
      (by decide)).2.1,
   (save_failure_state_divergence (some [containerFallbacks]) "t0" [] none
      (by decide)).2.2 true none⟩

theorem scrollAux_spec (heights : Nat → Int) :
    ∀ (n count : Nat), 51 - count = n → count ≤ 50 →
      count + 1 ≤ scrollAux heights (heights count) count ∧
      scrollAux heights (heights count) count ≤ 51 ∧
      (∀ j, count + 1 ≤ j → j < scrollAux heights (heights count) count →
          heights j ≠ heights (j - 1)) ∧
      (scrollAux heights (heights count) count ≤ 50 →
          heights (scrollAux heights (heights count) count) =
            heights (scrollAux heights (heights count) count - 1)) := by
  intro n
  induction n with
  | zero => intro count h1 h2; omega
  | succ n ih =>
      intro count h1 h2
      rw [scrollAux]
      split_ifs with heq hcap
      · refine ⟨le_refl _, by omega, ?_, ?_⟩
        · intro j hj1 hj2
          exfalso
          omega
        · intro _
          simpa using heq
      · refine ⟨le_refl _, by omega, ?_, ?_⟩
        · intro j hj1 hj2
          exfalso
          omega
        · intro hle
          exfalso
          omega
      · obtain ⟨ih1, ih2, ih3, ih4⟩ := ih (count + 1) (by omega) (by omega)
        refine ⟨by omega, ih2, ?_, ih4⟩
        intro j hj1 hj2
        by_cases hj : j = count + 1
        · subst hj
          simpa using heq
        · exact ih3 j (by omega) hj2

/-- Claim C6 (amended): the scroll loop always terminates and performs at
most 51 scroll iterations; it stops as soon as a post-scroll height
measurement equals the immediately preceding one, and only the run that
reaches the full 51 iterations may end without such an equality (the safety
check `scroll_count > 50` fires after the 51st scroll). -/
theorem scroll_to_load_all_spec (heights : Nat → Int) :
    1 ≤ scroll_to_load_all heights ∧ scroll_to_load_all heights ≤ 51 ∧
    (∀ j, 1 ≤ j → j < scroll_to_load_all heights →
        heights j ≠ heights (j - 1)) ∧
    (scroll_to_load_all heights ≤ 50 →
        heights (scroll_to_load_all heights) =
          heights (scroll_to_load_all heights - 1)) := by
  have h := scrollAux_spec heights 51 0 rfl (by omega)
  simpa [scroll_to_load_all] using h

/-- Claim C6 witness: on a page that never grows, the loop stops after the
very first scroll, whose measurement repeats the initial one. -/
theorem scroll_to_load_all_spec_witness :
    heightsConst (scroll_to_load_all heightsConst) =
      heightsConst (scroll_to_load_all heightsConst - 1) := by
  have h := scroll_to_load_all_spec heightsConst
  refine h.2.2.2 ?_
  by_contra hgt
  exact h.2.2.1 1 le_rfl (by omega) rfl

/-- Claim C6 counterexample: on a page whose height grows after every scroll,
the loop performs 51 scroll iterations, exceeding the claimed cap of 50. -/
theorem scroll_cap_counterexample :
    50 < scroll_to_load_all heightsGrowing ∧
    scroll_to_load_all heightsGrowing = 51 := by
  obtain ⟨h1, h2, h3, h4⟩ := scrollAux_spec heightsGrowing 51 0 rfl (by omega)
  rw [scroll_to_load_all]
  constructor
  · by_contra hle
    have hd : ((scrollAux heightsGrowing (heightsGrowing 0) 0 : Nat) : Int) =
        ((scrollAux heightsGrowing (heightsGrowing 0) 0 - 1 : Nat) : Int) :=
      h4 (by omega)
    omega
  · by_contra hne
    have hd : ((scrollAux heightsGrowing (heightsGrowing 0) 0 : Nat) : Int) =
        ((scrollAux heightsGrowing (heightsGrowing 0) 0 - 1 : Nat) : Int) :=
      h4 (by omega)
    omega

/-- Claim C8: loading the state never propagates a failure: an absent file
yields the empty mapping, and a file whose contents fail to parse yields the
empty mapping (the embedding is a total function: the `try/except` converts
the raise into the empty-dict result). -/
theorem load_never_fails (parseJson : String → Option Json) :
    load_existing_apartments none parseJson = Json.obj [] ∧
    (∀ content, parseJson content = none →
        load_existing_apartments (some content) parseJson = Json.obj []) := by
  constructor
  · rfl
  · intro content h
    simp [load_existing_apartments, h]

/-- Claim C8 witness: corrupt content parses to nothing and loads as the
empty mapping. -/
theorem load_never_fails_witness :
    load_existing_apartments (some "corrupt") (fun _ => none) = Json.obj [] :=
  (load_never_fails (fun _ => none)).2 "corrupt" rfl

/-- Claim C9 counterexample: content parsing to the JSON number 1 is
successfully parsed yet NOT returned unchanged: `len(data)` in the logging
line raises inside the `try`, so load yields the empty mapping instead of
the parsed value. -/
theorem load_unsized_value_counterexample :
    load_existing_apartments (some "1") (fun _ => some (Json.num 1)) =
      Json.obj [] ∧
    Json.obj ([] : List (String × Json)) ≠ Json.num 1 :=
  ⟨rfl, fun h => Json.noConfusion h⟩

/-- Claim C9 (amended): the only filtering of successfully parsed content is
the incidental `len()` requirement of the logging line: a parsed value with
a Python length (string, list or object) is returned unchanged as the known
state with no object-shape validation — in particular a JSON list becomes
the known state — while a parsed value without a length (null, boolean,
number) loads as the empty mapping. -/
theorem load_sized_value_passthrough (parseJson : String → Option Json)
    (content : String) :
    (∀ (v : Json) (n : Nat), parseJson content = some v → jsonLen v = some n →
        load_existing_apartments (some content) parseJson = v) ∧
    (∀ v : Json, parseJson content = some v → jsonLen v = none →
        load_existing_apartments (some content) parseJson = Json.obj []) := by
  constructor
  · intro v n hv hlen
    simp [load_existing_apartments, hv, hlen]
  · intro v hv hlen
    simp [load_existing_apartments, hv, hlen]

/-- Claim C9 witness: a file parsing to the JSON list [1] (which has a
length) loads as that list, not as an object; a file parsing to the JSON
boolean true loads as the empty mapping. -/
theorem load_sized_value_passthrough_witness :
    load_existing_apartments (some "[1]")
        (fun _ => some (Json.arr [Json.num 1])) = Json.arr [Json.num 1] ∧
    load_existing_apartments (some "true")
        (fun _ => some (Json.bool true)) = Json.obj [] :=
  ⟨(load_sized_value_passthrough (fun _ => some (Json.arr [Json.num 1]))
      "[1]").1 (Json.arr [Json.num 1]) 1 rfl rfl,
   (load_sized_value_passthrough (fun _ => some (Json.bool true))
      "true").2 (Json.bool true) rfl rfl⟩

end StuyTown
